import Mathlib

/-!
Verification of the live-view Metal rendering contract declared in
`Sources/CascableCoreSwift/UI/Metal Rendering/LiveViewShaderTypes.h`.

The header declares two C enumerations of binding-slot indices shared
between host code and the Metal shader, and the `LiveViewVertex` struct
whose byte layout crosses the host/GPU boundary.  We embed the
enumerations as Lean inductive types whose constructors carry the
enumerators' integer values, and the struct as a Lean structure together
with an explicit model of the C struct-layout algorithm (offsets, sizes,
alignment) applied to its fields.
-/

/-- Embedding of the C enum `LiveViewVertexInputIndex`: buffer index
values shared between shader and C code. -/
inductive LiveViewVertexInputIndex
  | Vertices
  | ViewportSize
deriving DecidableEq, Fintype

/-- The integer value of each `LiveViewVertexInputIndex` enumerator, as
written in the header (`Vertices = 0`, `ViewportSize = 1`).  C enum
constants have integer type, so the codomain is `Int`. -/
def LiveViewVertexInputIndex.val : LiveViewVertexInputIndex → Int
  | .Vertices => 0
  | .ViewportSize => 1

/-- Embedding of the C enum `LiveViewTextureIndex`: texture index values
shared between shader and C code. -/
inductive LiveViewTextureIndex
  | BaseColor
deriving DecidableEq, Fintype

/-- The integer value of each `LiveViewTextureIndex` enumerator, as
written in the header (`BaseColor = 0`). -/
def LiveViewTextureIndex.val : LiveViewTextureIndex → Int
  | .BaseColor => 0

/-- Metal binds buffers and textures through different API calls
(`setVertexBuffer` vs `setFragmentTexture`), so buffer indices and
texture indices live in independent numbering spaces. -/
inductive BindingAPI
  | bufferBind
  | textureBind
deriving DecidableEq

/-- A fully-qualified resource binding: which API namespace the index
belongs to, plus the integer index itself. -/
def bufferBinding (i : LiveViewVertexInputIndex) : BindingAPI × Int :=
  (BindingAPI.bufferBind, i.val)

/-- A fully-qualified texture binding in the texture-index namespace. -/
def textureBinding (i : LiveViewTextureIndex) : BindingAPI × Int :=
  (BindingAPI.textureBind, i.val)

/-- Reading a binding-slot constant from the header is independent of any
pipeline state: the constant is a compile-time literal.  We model a read
as a function that is handed an arbitrary state and ignores it, exactly
as the declarative header provides no state to consult. -/
def readBufferSlot {σ : Type} (_ : σ) (i : LiveViewVertexInputIndex) : Int :=
  i.val

/-- State-independent read of a texture-slot constant. -/
def readTextureSlot {σ : Type} (_ : σ) (i : LiveViewTextureIndex) : Int :=
  i.val

/-! ## The C struct layout of `LiveViewVertex`

`LiveViewVertex` is declared as two consecutive `vector_float2` fields
(`position`, then `textureCoordinate`).  `<simd/simd.h>` defines
`vector_float2` as a 2-lane float vector: size 8 bytes, alignment 8
bytes; a C `float` is 4 bytes.  We run the standard C struct-layout
algorithm over the declared field list. -/

/-- Size in bytes of a C `float`. -/
def floatSize : Nat := 4

/-- A C type's size and alignment in bytes. -/
structure CType where
  size : Nat
  align : Nat
deriving DecidableEq

/-- `vector_float2` from `<simd/simd.h>`: two packed floats, 8-byte
size and 8-byte alignment. -/
def vector_float2 : CType := ⟨2 * floatSize, 2 * floatSize⟩

/-- Round `off` up to the next multiple of `a` (C field alignment). -/
def alignUp (off a : Nat) : Nat := ((off + a - 1) / a) * a

/-- The C struct-layout algorithm: place each field at the next offset
aligned to its alignment requirement, returning the field offsets and
the offset past the last field. -/
def layoutFields : Nat → List CType → List Nat × Nat
  | off, [] => ([], off)
  | off, t :: ts =>
      let fieldOff := alignUp off t.align
      let (rest, endOff) := layoutFields (fieldOff + t.size) ts
      (fieldOff :: rest, endOff)

/-- The alignment of a C struct is the maximum alignment of its fields. -/
def structAlign (fields : List CType) : Nat :=
  fields.foldl (fun a t => max a t.align) 1

/-- The size of a C struct: the end offset of its fields, rounded up to
the struct's alignment. -/
def structSize (fields : List CType) : Nat :=
  alignUp (layoutFields 0 fields).2 (structAlign fields)

/-- The declared field list of `LiveViewVertex`, in source order:
`position` then `textureCoordinate`, both `vector_float2`. -/
def liveViewVertexFields : List CType := [vector_float2, vector_float2]

/-- A 2-component float vector value.  Exact rationals stand in for the
IEEE floats; every arithmetic fact proved here (division by a half, sign
symmetry) is exact in IEEE-754 as well for these operands. -/
structure Float2 where
  x : ℚ
  y : ℚ
deriving DecidableEq

/-- Embedding of the `LiveViewVertex` struct's fields, in source order. -/
structure LiveViewVertex where
  position : Float2
  textureCoordinate : Float2
deriving DecidableEq

/-- The two lanes of a `vector_float2` in memory order. -/
def Float2.toFloats (v : Float2) : List ℚ := [v.x, v.y]

/-- The float lanes of a `LiveViewVertex` record in memory order:
the fields are laid out in declaration order with no padding between
them, so the bytes are `position`'s lanes followed by
`textureCoordinate`'s lanes. -/
def LiveViewVertex.toFloats (v : LiveViewVertex) : List ℚ :=
  v.position.toFloats ++ v.textureCoordinate.toFloats

/-! ## The viewport transform and quad construction

The `.metal` shader source and the host render-pass code are not part of
the visible repository fragment; only this shared header is.  The
transform and the quad geometry are therefore modelled from the spec. -/

/-- Modelled from the spec: the vertex shader's viewport transform (the
`.metal` shader source is absent from the repository fragment).
Normalized device coordinate = pixel-space position divided by half the
viewport size, per axis, yielding a [-1,1] range with (0,0) centered. -/
def ndcTransform (pos viewport : Float2) : Float2 :=
  ⟨pos.x / (viewport.x / 2), pos.y / (viewport.y / 2)⟩

/-- Modelled from the spec: the host-side quad construction (the render
pass code is absent from the repository fragment).  The four corners sit
at (±halfWidth, ±halfHeight) in pixel space for the current viewport
W×H, paired with texture coordinates (0,0), (1,0), (0,1), (1,1). -/
def quadCorners (W H : ℚ) : List LiveViewVertex :=
  [⟨⟨-(W / 2), -(H / 2)⟩, ⟨0, 0⟩⟩,
   ⟨⟨W / 2, -(H / 2)⟩, ⟨1, 0⟩⟩,
   ⟨⟨-(W / 2), H / 2⟩, ⟨0, 1⟩⟩,
   ⟨⟨W / 2, H / 2⟩, ⟨1, 1⟩⟩]

/-! ## Claim theorems -/

/-- C1: The `LiveViewVertex` record consists of exactly the two fields
`position` then `textureCoordinate`, each a 2-component float vector laid
out consecutively with no padding, so the record's byte size and stride
equal 4 floats, in memory order position.x, position.y, texCoord.x,
texCoord.y. -/
theorem vertex_record_four_packed_floats :
    (layoutFields 0 liveViewVertexFields).1 = [0, 2 * floatSize] ∧
    structSize liveViewVertexFields = 4 * floatSize ∧
    structSize liveViewVertexFields = (liveViewVertexFields.map CType.size).sum ∧
    ∀ v : LiveViewVertex,
      v.toFloats = [v.position.x, v.position.y,
                    v.textureCoordinate.x, v.textureCoordinate.y] ∧
      v.toFloats.length * floatSize = structSize liveViewVertexFields := by
  refine ⟨by decide, by decide, by decide, fun v => ⟨rfl, by rfl⟩⟩

/-- C2: for every viewport W×H with W, H > 0, a vertex at pixel position
(W/2, H/2) maps to normalized device coordinate (1,1), and a vertex at
(-W/2, -H/2) maps to (-1,-1), under the viewport transform. -/
theorem ndc_maps_half_viewport_corners (W H : ℚ) (hW : 0 < W) (hH : 0 < H) :
    ndcTransform ⟨W / 2, H / 2⟩ ⟨W, H⟩ = ⟨1, 1⟩ ∧
    ndcTransform ⟨-(W / 2), -(H / 2)⟩ ⟨W, H⟩ = ⟨-1, -1⟩ := by
  have hW2 : W / 2 ≠ 0 := by positivity
  have hH2 : H / 2 ≠ 0 := by positivity
  constructor <;>
    simp [ndcTransform, div_self hW2, div_self hH2, neg_div]

/-- Witness for C2 at the concrete viewport 800×600. -/
theorem ndc_maps_half_viewport_corners_witness :
    ndcTransform ⟨800 / 2, 600 / 2⟩ ⟨800, 600⟩ = ⟨1, 1⟩ ∧
    ndcTransform ⟨-(800 / 2), -(600 / 2)⟩ ⟨800, 600⟩ = ⟨-1, -1⟩ :=
  ndc_maps_half_viewport_corners 800 600 (by decide) (by decide)

/-- C3: the two buffer binding-slot constants are distinct:
`Vertices ≠ ViewportSize`, both as enumerators and as integer values. -/
theorem buffer_slots_distinct :
    LiveViewVertexInputIndex.Vertices ≠ LiveViewVertexInputIndex.ViewportSize ∧
    LiveViewVertexInputIndex.Vertices.val ≠
      LiveViewVertexInputIndex.ViewportSize.val := by
  decide

/-- C4: after a resize to a 400×300 viewport, the quad (whose definition
in pixel units — corners at ±halfWidth, ±halfHeight of the current
viewport — is unchanged and recomputed for the new viewport) again
covers the full drawable: its corners map to normalized device
coordinates (±1, ±1). -/
theorem resize_recovers_full_drawable :
    (quadCorners 400 300).map (fun v => ndcTransform v.position ⟨400, 300⟩) =
      [⟨-1, -1⟩, ⟨1, -1⟩, ⟨-1, 1⟩, ⟨1, 1⟩] := by
  norm_num [quadCorners, ndcTransform]

/-- C5: texture binding slots live in a numbering space separate from
buffer binding slots: `TextureSlot.BaseColor` numerically equals
`BufferSlot.Vertices` (both 0), yet the two fully-qualified bindings are
distinct resources. -/
theorem texture_buffer_namespaces_independent :
    (textureBinding LiveViewTextureIndex.BaseColor).2 =
      (bufferBinding LiveViewVertexInputIndex.Vertices).2 ∧
    textureBinding LiveViewTextureIndex.BaseColor ≠
      bufferBinding LiveViewVertexInputIndex.Vertices := by
  decide

/-- C6: for a viewport of 800×600 with quad corners at (±400, ±300)
paired with texture coordinates (0,0),(1,0),(0,1),(1,1), the corners map
to normalized device coordinates (±1, ±1) — filling the drawable — and
the texture coordinates span exactly [0,1]×[0,1]. -/
theorem full_drawable_unscaled_800x600 :
    (quadCorners 800 600).map (fun v => v.position) =
      [⟨-400, -300⟩, ⟨400, -300⟩, ⟨-400, 300⟩, ⟨400, 300⟩] ∧
    (quadCorners 800 600).map (fun v => ndcTransform v.position ⟨800, 600⟩) =
      [⟨-1, -1⟩, ⟨1, -1⟩, ⟨-1, 1⟩, ⟨1, 1⟩] ∧
    (quadCorners 800 600).map (fun v => v.textureCoordinate) =
      [⟨0, 0⟩, ⟨1, 0⟩, ⟨0, 1⟩, ⟨1, 1⟩] := by
  refine ⟨by norm_num [quadCorners], by norm_num [quadCorners, ndcTransform], by norm_num [quadCorners]⟩

/-- C7: the buffer binding-slot enumeration defines exactly the two
values `Vertices` and `ViewportSize`, and the texture binding-slot
enumeration defines exactly the one value `BaseColor`. -/
theorem slot_enumerations_exhaustive :
    Fintype.card LiveViewVertexInputIndex = 2 ∧
    Fintype.card LiveViewTextureIndex = 1 ∧
    (∀ i : LiveViewVertexInputIndex,
      i = LiveViewVertexInputIndex.Vertices ∨
      i = LiveViewVertexInputIndex.ViewportSize) ∧
    (∀ t : LiveViewTextureIndex, t = LiveViewTextureIndex.BaseColor) := by
  refine ⟨by decide, by decide, by decide, by decide⟩

/-- C8: every binding-slot constant is a small non-negative integer
(between 0 and 1), and reading it is independent of any pipeline state,
so its value is stable for the lifetime of the pipeline. -/
theorem slot_values_small_nonneg_stable :
    (∀ i : LiveViewVertexInputIndex, 0 ≤ i.val ∧ i.val ≤ 1) ∧
    (∀ t : LiveViewTextureIndex, 0 ≤ t.val ∧ t.val ≤ 1) ∧
    (∀ (σ : Type) (s s' : σ) (i : LiveViewVertexInputIndex),
      readBufferSlot s i = readBufferSlot s' i) ∧
    (∀ (σ : Type) (s s' : σ) (t : LiveViewTextureIndex),
      readTextureSlot s t = readTextureSlot s' t) := by
  exact ⟨by decide, by decide, fun σ s s' i => rfl, fun σ s s' t => rfl⟩

/-- C9: evaluating a binding-slot constant is a total operation: for
every pipeline state and every slot, the read yields a defined integer
value — there is no failure path. -/
theorem slot_evaluation_total :
    (∀ (σ : Type) (s : σ) (i : LiveViewVertexInputIndex),
      ∃ v : Int, readBufferSlot s i = v) ∧
    (∀ (σ : Type) (s : σ) (t : LiveViewTextureIndex),
      ∃ v : Int, readTextureSlot s t = v) :=
  ⟨fun _ _ i => ⟨i.val, rfl⟩, fun _ _ t => ⟨t.val, rfl⟩⟩

/-- C10: the concrete numeric slot values are `Vertices = 0`,
`ViewportSize = 1`, `BaseColor = 0`. -/
theorem slot_values_concrete :
    LiveViewVertexInputIndex.Vertices.val = 0 ∧
    LiveViewVertexInputIndex.ViewportSize.val = 1 ∧
    LiveViewTextureIndex.BaseColor.val = 0 := by
  decide
